import Mathlib

/-!
Verification of the Banner report-bot conversation core (src/main.py, src/config.py).

The embedding models, at the logical level, the pieces the claims are about:

* Python string primitives used by the handlers: `str.strip()`, `str.capitalize()`,
  slicing `s[:n]`, `len`.  Character classes are modelled over ASCII (the regex
  `\w` is letters, digits and underscore; Python's default `\w` is Unicode-aware,
  but every string the claims quantify over or exhibit is ASCII).
* `ReportBot.validate_target` (src/main.py:359-367): the three anchored regular
  expressions, including Python's `$` semantics (it matches at the end of the
  string or just before a single newline at the end of the string) and the
  greedy-with-backtracking quantifiers, which here collapse to longest-munch
  because the character classes are disjoint from what may legally follow them.
* The conversation state machine as set up in `ReportBot.setup`
  (src/main.py:369-395): a per-user step function over the framework state.
  The framework (python-telegram-bot) keeps, per user, the current conversation
  state (dropped when a handler returns `ConversationHandler.END`) and the
  `context.user_data` dict, which persists across conversations and is emptied
  only by an explicit `user_data.clear()`.  Button events are modelled as the
  button sets actually rendered by the bot's keyboards; routing follows the
  `ConversationHandler` registration (free text only reaches the TARGET and
  DETAILS states, `/cancel` is a fallback usable from every active state,
  `/report` is an entry point only).
* `ReportBot.save_report` (src/main.py:280-326): the fan-out is modelled as the
  list of delivery attempts, one per configured recipient, each wrapped in its
  own try/except; a failure oracle `fl` says which sends raise.  The body text
  of those messages (timestamps, report ids) is environmental and not inspected
  by any claim, so a delivery is recorded as recipient + success flag.
* Times are natural-number seconds; `datetime.now()` becomes an explicit `now`
  argument on the events that read the clock.  `timedelta.seconds` of a positive
  difference below one day is the difference itself; in general it is the
  difference modulo 86400 (the day part is discarded), which is modelled.
-/

namespace Banner

/-! ## Python string primitives -/

/-- ASCII whitespace removed by Python `str.strip()`. -/
def pyIsSpace (c : Char) : Bool :=
  c = ' ' || c = '\t' || c = '\n' || c = '\r' || c = '\x0b' || c = '\x0c'

/-- Python `str.strip()` (over ASCII whitespace). -/
def pyStrip (s : String) : String :=
  ⟨((s.data.dropWhile pyIsSpace).reverse.dropWhile pyIsSpace).reverse⟩

/-- Python `str.capitalize()`: first character uppercased, the rest lowercased. -/
def pyCapitalize (s : String) : String :=
  match s.data with
  | [] => ""
  | c :: cs => ⟨c.toUpper :: cs.map Char.toLower⟩

/-- Python slicing `s[:n]`. -/
def pyTake (n : Nat) (s : String) : String := ⟨s.data.take n⟩

/-! ## The validator (`ReportBot.validate_target`, src/main.py:359-367) -/

/-- Regex `\w` over ASCII: letter, digit or underscore. -/
def isWordChar (c : Char) : Bool := c.isAlphanum || c = '_'

/-- The class `[\w\+]` of the second pattern. -/
def wordOrPlus (c : Char) : Bool := isWordChar c || c = '+'

/-- Python regex `$` (no MULTILINE): succeeds at the end of the string, or just
before a newline that ends the string. -/
def dollarEnd : List Char → Bool
  | [] => true
  | [c] => c = '\n'
  | _ => false

/-- Regex tail `/?$` of the second pattern. -/
def afterClass : List Char → Bool
  | '/' :: t => dollarEnd t
  | t => dollarEnd t

/-- Strip an expected literal prefix, returning the remainder on success. -/
def stripPrefixCh : List Char → List Char → Option (List Char)
  | [], s => some s
  | _ :: _, [] => none
  | p :: ps, c :: cs => if c = p then stripPrefixCh ps cs else none

/-- The shared `https?://t\.me/` head of patterns two and three: literal `http`,
an optional `s` (the backtracking alternative never helps, since after it the
pattern demands `:`), then literal `://t.me/`. -/
def afterScheme (s : List Char) : Option (List Char) :=
  match stripPrefixCh ['h', 't', 't', 'p'] s with
  | none => none
  | some r1 =>
      stripPrefixCh [':', '/', '/', 't', '.', 'm', 'e', '/']
        (if r1.head? = some 's' then r1.tail else r1)

/-- Pattern `^@\w{5,32}$`.  The greedy counted quantifier followed by `$` is
longest-munch: no word character may remain in front of the anchor. -/
def matchUsername : List Char → Bool
  | [] => false
  | c :: rest =>
      c = '@' &&
      decide (5 ≤ (rest.takeWhile isWordChar).length) &&
      decide ((rest.takeWhile isWordChar).length ≤ 32) &&
      dollarEnd (rest.dropWhile isWordChar)

/-- Pattern `^https?://t\.me/[\w\+]+/?$`. -/
def matchTme (s : List Char) : Bool :=
  match afterScheme s with
  | some rest =>
      decide (1 ≤ (rest.takeWhile wordOrPlus).length) &&
      afterClass (rest.dropWhile wordOrPlus)
  | none => false

/-- Pattern `^https?://t\.me/\+[\w]+$`. -/
def matchInvite (s : List Char) : Bool :=
  match afterScheme s with
  | some [] => false
  | some (c :: rest) =>
      c = '+' &&
      decide (1 ≤ (rest.takeWhile isWordChar).length) &&
      dollarEnd (rest.dropWhile isWordChar)
  | none => false

/-- Model of `ReportBot.validate_target`: `any(re.match(p, target) for p in patterns)`. -/
def validate_target (target : String) : Bool :=
  matchUsername target.data || matchTme target.data || matchInvite target.data

/-- The same validator with the third (private-invite) pattern removed; the
comparison point for the refinement claim. -/
def validate_target_noInvite (target : String) : Bool :=
  matchUsername target.data || matchTme target.data

/-! ## Substring containment (for the summary claims) -/

/-- Whether `pat` occurs as a contiguous substring. -/
def hasSub (pat : List Char) : List Char → Bool
  | [] => (stripPrefixCh pat []).isSome
  | c :: cs => (stripPrefixCh pat (c :: cs)).isSome || hasSub pat cs

def strContains (pat s : String) : Bool := hasSub pat.data s.data

/-! ## Configuration (src/config.py) -/

/-- Constant `config.MAX_REPORT_LENGTH` (src/config.py:17). -/
def MAX_REPORT_LENGTH : Nat := 1000

/-- Constant `config.REPORT_COOLDOWN`, seconds between reports (src/config.py:18). -/
def REPORT_COOLDOWN : Nat := 60

/-- The configuration surface the handlers read. -/
structure Cfg where
  channelId : Option String
  adminIds : List Int
  maxLen : Nat
  cooldownDur : Nat
deriving DecidableEq

/-- Python truthiness of `config.REPORT_CHANNEL_ID` (`if config.REPORT_CHANNEL_ID:`):
unset (`None`) and the empty string are falsy. -/
def truthyOpt : Option String → Bool
  | none => false
  | some s => s != ""

/-! ## Data model of the conversation -/

inductive TypeChoice
  | user
  | group
  | channel
deriving DecidableEq

inductive ReasonChoice
  | spam
  | scam
  | harassment
  | illegal
  | impersonation
  | other
deriving DecidableEq

/-- The string stored in `user_data['report_type']`. -/
def typeKey : TypeChoice → String
  | .user => "user"
  | .group => "group"
  | .channel => "channel"

/-- The `REPORT_TYPES` display labels (src/main.py:37-41). -/
def REPORT_TYPES : TypeChoice → String
  | .user => "👤 User"
  | .group => "👥 Group"
  | .channel => "📢 Channel"

/-- The string stored in `user_data['report_reason']`. -/
def reasonKey : ReasonChoice → String
  | .spam => "spam"
  | .scam => "scam"
  | .harassment => "harassment"
  | .illegal => "illegal"
  | .impersonation => "impersonation"
  | .other => "other"

/-- Buttons of the type-selection keyboard (src/main.py:99-104). -/
inductive TypeBtn
  | pick (t : TypeChoice)
  | cancelBtn
deriving DecidableEq

/-- Buttons of the reason keyboard (src/main.py:159-172). -/
inductive ReasonBtn
  | pick (r : ReasonChoice)
  | cancelBtn
deriving DecidableEq

/-- Buttons of the confirmation keyboard (src/main.py:236-241). -/
inductive ConfirmBtn
  | confirmBtn
  | cancelBtn
deriving DecidableEq

/-- Model of `context.user_data`: the draft fields, each absent until its step stores it.
`user_data.clear()` resets all four to `none`. -/
structure Draft where
  report_type : Option TypeChoice
  report_target : Option String
  report_reason : Option ReasonChoice
  report_details : Option String
deriving DecidableEq

def Draft.empty : Draft := ⟨none, none, none, none⟩

/-- The `ConversationHandler` states (src/main.py:34). -/
inductive ConvState
  | reportType
  | reportTarget
  | reportReason
  | reportDetails
  | confirmation
deriving DecidableEq

/-- The per-user framework state: the current conversation state (`none` when no
conversation is active, i.e. before `/report` and after `ConversationHandler.END`),
the `user_data` dict, and this user's `user_cooldowns` entry (absolute seconds). -/
structure UState where
  conv : Option ConvState
  draft : Draft
  cooldown : Option Nat
deriving DecidableEq

/-- A fan-out recipient of `save_report`. -/
inductive Recipient
  | channel
  | admin (id : Int)
deriving DecidableEq

/-- Observable effects of one handler invocation.  `deliver r ok` is one
`bot.send_message` attempt inside `save_report`'s per-recipient try/except;
`ok = false` means that send raised (and was logged and swallowed). -/
inductive Out
  | reply (text : String)
  | edit (text : String)
  | dispatchCall
  | deliver (r : Recipient) (ok : Bool)
deriving DecidableEq

/-- Inbound events, as routed by the handler registration in `setup`. -/
inductive Ev
  | reportCmd (now : Nat)
  | typeCb (b : TypeBtn)
  | textMsg (text : String)
  | reasonCb (b : ReasonBtn)
  | skipCmd
  | confirmCb (b : ConfirmBtn) (now : Nat)
  | cancelCmd
deriving DecidableEq

def Out.isDispatchCall : Out → Bool
  | .dispatchCall => true
  | _ => false

/-- Number of `save_report` (Dispatcher) invocations recorded in an output list. -/
def dispatchCount (l : List Out) : Nat := l.countP Out.isDispatchCall

/-! ## Message texts rendered by the handlers -/

def typePromptText : String :=
  "🔍 **What would you like to report?**\n\nPlease select one of the options below:"

def cancelledEditText : String := "❌ Report cancelled."

def cancelledCmdText : String :=
  "❌ Operation cancelled. Use /report to start a new report."

def cooldownText (n : Nat) : String :=
  "⏰ Please wait " ++ toString n ++ " seconds before creating another report."

def targetPromptText (t : TypeChoice) : String :=
  "📝 You selected: **" ++ REPORT_TYPES t ++ "**\n\nPlease send the username or invite link of the "
    ++ typeKey t
    ++ " you want to report.\n\nExamples:\n• Username: @username\n• Link: https://t.me/username\n• Group link: https://t.me/+abc123..."

def invalidTargetText : String :=
  "❌ Invalid format. Please provide a valid username or Telegram link.\n\nExamples:\n• @username\n• https://t.me/username\n• https://t.me/+abc123..."

def reasonPromptText : String := "⚠️ **Select a reason for your report:**"

def detailsPromptText (maxLen : Nat) : String :=
  "📝 **Please provide additional details:**\n\nInclude any relevant information that might help us investigate this report.\nMaximum "
    ++ toString maxLen
    ++ " characters.\n\nSend /skip to continue without additional details."

def tooLongText (maxLen : Nat) : String :=
  "❌ Details too long. Maximum " ++ toString maxLen
    ++ " characters allowed.\nPlease try again or use /skip to continue without details."

def successText : String :=
  "✅ **Report submitted successfully!**\n\nThank you for helping keep Telegram safe. Our team will review your report.\nYou can use /report to submit another report."

/-- The sentinel stored by `skip_details` (src/main.py:221). -/
def skipSentinel : String := "No additional details provided."

/-- The confirmation summary (src/main.py:228-234); note `capitalize()` on the
reason and the `[:200]` slice on the details.  Built over `.data` so that the
underlying character list is literally an append chain. -/
def summaryText (t : TypeChoice) (tgt : String) (r : ReasonChoice) (d : String) : String :=
  ⟨"📋 **Please confirm your report:**\n\n**Type:** ".data ++ (REPORT_TYPES t).data
    ++ "\n**Target:** ".data ++ tgt.data
    ++ "\n**Reason:** ".data ++ (pyCapitalize (reasonKey r)).data
    ++ "\n**Details:** ".data ++ (pyTake 200 d).data⟩

/-! ## The handlers (methods of `ReportBot`) -/

namespace ReportBot

/-- Handler `report_command` (src/main.py:84-114): cooldown gate, then the type keyboard.
A blocked user gets the remaining `timedelta.seconds` (the difference modulo
86400, days discarded) and the handler ends without touching the state. -/
def report_command (st : UState) (now : Nat) : UState × List Out :=
  match st.cooldown with
  | some cooldownEnd =>
      if now < cooldownEnd then
        (st, [.reply (cooldownText ((cooldownEnd - now) % 86400))])
      else
        ({st with conv := some .reportType}, [.reply typePromptText])
  | none => ({st with conv := some .reportType}, [.reply typePromptText])

/-- Handler `report_type_callback` (src/main.py:116-139). -/
def report_type_callback (st : UState) (b : TypeBtn) : UState × List Out :=
  match b with
  | .cancelBtn => ({st with conv := none}, [.edit cancelledEditText])
  | .pick t =>
      ({st with conv := some .reportTarget,
                draft := {st.draft with report_type := some t}},
       [.edit (targetPromptText t)])

/-- Handler `report_target` (src/main.py:141-181): strip, validate, store. -/
def report_target (st : UState) (text : String) : UState × List Out :=
  let target := pyStrip text
  if validate_target target then
    ({st with conv := some .reportReason,
              draft := {st.draft with report_target := some target}},
     [.reply reasonPromptText])
  else
    (st, [.reply invalidTargetText])

/-- Handler `report_reason_callback` (src/main.py:183-203). -/
def report_reason_callback (cfg : Cfg) (st : UState) (b : ReasonBtn) : UState × List Out :=
  match b with
  | .cancelBtn => ({st with conv := none}, [.edit cancelledEditText])
  | .pick r =>
      ({st with conv := some .reportDetails,
                draft := {st.draft with report_reason := some r}},
       [.edit (detailsPromptText cfg.maxLen)])

/-- Handler `confirm_report` (src/main.py:224-250).  If a needed `user_data` key were
missing, the Python handler would raise `KeyError` before replying or returning
a new state; the framework then leaves the conversation state unchanged. -/
def confirm_report (st : UState) : UState × List Out :=
  match st.draft.report_type, st.draft.report_target, st.draft.report_reason,
        st.draft.report_details with
  | some t, some tgt, some r, some d =>
      ({st with conv := some .confirmation}, [.reply (summaryText t tgt r d)])
  | _, _, _, _ => (st, [])

/-- Handler `report_details` (src/main.py:205-217): strip, length-check, store, summary. -/
def report_details (cfg : Cfg) (st : UState) (text : String) : UState × List Out :=
  let details := pyStrip text
  if details.length > cfg.maxLen then
    (st, [.reply (tooLongText cfg.maxLen)])
  else
    confirm_report {st with draft := {st.draft with report_details := some details}}

/-- Handler `skip_details` (src/main.py:219-222). -/
def skip_details (st : UState) : UState × List Out :=
  confirm_report {st with draft := {st.draft with report_details := some skipSentinel}}

/-- The fan-out of `save_report` (src/main.py:296-326): the channel send (when a
channel id is configured and truthy), then one send per configured admin, each
inside its own try/except, so one attempt's failure never skips the rest. -/
def save_report_outs (cfg : Cfg) (fl : Recipient → Bool) : List Out :=
  (if truthyOpt cfg.channelId then [.deliver .channel (!fl .channel)] else [])
    ++ cfg.adminIds.map fun a => .deliver (.admin a) (!fl (.admin a))

/-- Handler `confirmation_callback` (src/main.py:252-278): on confirm, invoke
`save_report`, set the cooldown to `now + REPORT_COOLDOWN`, edit the success
message, and clear `user_data`; on cancel, just end.  If a draft field were
missing, `save_report` would raise before any of those effects. -/
def confirmation_callback (cfg : Cfg) (fl : Recipient → Bool) (st : UState)
    (b : ConfirmBtn) (now : Nat) : UState × List Out :=
  match b with
  | .cancelBtn => ({st with conv := none}, [.edit cancelledEditText])
  | .confirmBtn =>
      match st.draft.report_type, st.draft.report_target, st.draft.report_reason,
            st.draft.report_details with
      | some _, some _, some _, some _ =>
          ({st with conv := none, draft := Draft.empty,
                    cooldown := some (now + cfg.cooldownDur)},
           .dispatchCall :: (save_report_outs cfg fl ++ [.edit successText]))
      | _, _, _, _ => (st, [])

/-- Handler `cancel` (src/main.py:352-357), the `/cancel` fallback. -/
def cancel (st : UState) : UState × List Out :=
  ({st with conv := none}, [.reply cancelledCmdText])

end ReportBot

/-- One inbound event for one user, routed as the `ConversationHandler` in
`setup` (src/main.py:375-388) routes it; events that no registered handler
accepts in the current state are dropped.  `/report` is an entry point only
(re-entry during an active conversation matches no state handler or fallback);
free text reaches only the TARGET and DETAILS states; `/skip` only the DETAILS
state; button presses only the state whose pattern accepts them; `/cancel` is a
fallback available from every active state. -/
def step (cfg : Cfg) (fl : Recipient → Bool) (ev : Ev) (st : UState) : UState × List Out :=
  match ev, st.conv with
  | .reportCmd now, none => ReportBot.report_command st now
  | .typeCb b, some .reportType => ReportBot.report_type_callback st b
  | .textMsg t, some .reportTarget => ReportBot.report_target st t
  | .reasonCb b, some .reportReason => ReportBot.report_reason_callback cfg st b
  | .textMsg t, some .reportDetails => ReportBot.report_details cfg st t
  | .skipCmd, some .reportDetails => ReportBot.skip_details st
  | .confirmCb b now, some .confirmation => ReportBot.confirmation_callback cfg fl st b now
  | .cancelCmd, some _ => ReportBot.cancel st
  | _, _ => (st, [])

/-! ## Concrete fixtures used by witnesses and counterexamples -/

/-- The configuration with the defaults of src/config.py, no channel, no admins. -/
def cfgD : Cfg := ⟨none, [], MAX_REPORT_LENGTH, REPORT_COOLDOWN⟩

/-- A failure oracle under which every delivery succeeds. -/
def flOk : Recipient → Bool := fun _ => false

/-- A 1001-character message whose stripped form has length 1000. -/
def msg1001 : String := ⟨List.replicate 1000 'a' ++ [' ']⟩

/-- Exactly 201 characters of `a`. -/
def aStr : String := ⟨List.replicate 201 'a'⟩

/-- A configuration with a truthy channel and two admins. -/
def cfg8 : Cfg := ⟨some "chan", [(1 : Int), 2], MAX_REPORT_LENGTH, REPORT_COOLDOWN⟩

/-- A failure oracle failing the channel and the first admin. -/
def fl8 : Recipient → Bool
  | .channel => true
  | .admin i => i == 1

/-! ## Helper lemmas -/

theorem data_mk (l : List Char) : (String.mk l).data = l := rfl

theorem stripPrefixCh_eq_some :
    ∀ (p s r : List Char), stripPrefixCh p s = some r ↔ s = p ++ r
  | [], s, r => by simp [stripPrefixCh]
  | p :: ps, [], r => by simp [stripPrefixCh]
  | p :: ps, c :: cs, r => by
      simp only [stripPrefixCh, List.cons_append]
      by_cases h : c = p
      · subst h
        simp [stripPrefixCh_eq_some ps cs r]
      · simp [h]

theorem stripPrefixCh_self (p r : List Char) : stripPrefixCh p (p ++ r) = some r :=
  (stripPrefixCh_eq_some p _ r).mpr rfl

/-- Behaviour of `takeWhile`/`dropWhile` on `w ++ t` when everything in `w` satisfies `p` and
the head of `t` (if any) does not: greedy matching stops exactly at the seam. -/
theorem takeWhile_dropWhile_append (p : Char → Bool) (w t : List Char)
    (hw : ∀ c ∈ w, p c = true) (ht : ∀ c, t.head? = some c → p c = false) :
    (w ++ t).takeWhile p = w ∧ (w ++ t).dropWhile p = t := by
  induction w with
  | nil =>
      simp only [List.nil_append]
      cases t with
      | nil => exact ⟨rfl, rfl⟩
      | cons c cs =>
          have hc := ht c rfl
          exact ⟨by simp [List.takeWhile_cons, hc], by simp [List.dropWhile_cons, hc]⟩
  | cons a w ih =>
      have ha : p a = true := hw a (List.mem_cons_self a w)
      have ih' := ih fun c hc => hw c (List.mem_cons_of_mem a hc)
      exact ⟨by simp [List.takeWhile_cons, ha, ih'.1],
             by simp [List.dropWhile_cons, ha, ih'.2]⟩

theorem dollarEnd_iff (t : List Char) : dollarEnd t = true ↔ t = [] ∨ t = ['\n'] := by
  rcases t with _ | ⟨c, _ | ⟨d, ds⟩⟩ <;> simp [dollarEnd]

theorem afterScheme_some_src (l rest : List Char) (h : afterScheme l = some rest) :
    l = "http://t.me/".data ++ rest ∨ l = "https://t.me/".data ++ rest := by
  unfold afterScheme at h
  cases h4 : stripPrefixCh ['h', 't', 't', 'p'] l with
  | none => rw [h4] at h; exact absurd h (by simp)
  | some r1 =>
      rw [h4] at h
      change stripPrefixCh [':', '/', '/', 't', '.', 'm', 'e', '/']
        (if r1.head? = some 's' then r1.tail else r1) = some rest at h
      have hl : l = ['h', 't', 't', 'p'] ++ r1 := (stripPrefixCh_eq_some _ _ _).mp h4
      by_cases hs : r1.head? = some 's'
      · rw [if_pos hs] at h
        have ht : r1.tail = [':', '/', '/', 't', '.', 'm', 'e', '/'] ++ rest :=
          (stripPrefixCh_eq_some _ _ _).mp h
        have hr1 : r1 = 's' :: r1.tail := by
          cases r1 with
          | nil => simp at hs
          | cons a u =>
              simp only [List.head?_cons, Option.some_inj] at hs
              subst hs; rfl
        right
        rw [hl, hr1, ht]
        rfl
      · rw [if_neg hs] at h
        have ht : r1 = [':', '/', '/', 't', '.', 'm', 'e', '/'] ++ rest :=
          (stripPrefixCh_eq_some _ _ _).mp h
        left
        rw [hl, ht]
        rfl

theorem hasSub_here (pat s : List Char) (h : (stripPrefixCh pat s).isSome = true) :
    hasSub pat s = true := by
  cases s with
  | nil => simpa [hasSub] using h
  | cons c cs => simp [hasSub, h]

theorem hasSub_self_append (pat r : List Char) : hasSub pat (pat ++ r) = true :=
  hasSub_here _ _ (by rw [stripPrefixCh_self]; rfl)

theorem hasSub_append_left (pat l₁ l₂ : List Char) (h : hasSub pat l₂ = true) :
    hasSub pat (l₁ ++ l₂) = true := by
  induction l₁ with
  | nil => simpa using h
  | cons c cs ih => simp [hasSub, ih]

/-- Characterisation of the username pattern, Python `$` semantics included. -/
theorem matchUsername_iff (w : List Char) :
    matchUsername ('@' :: w) = true ↔
      ∃ w', (w = w' ∨ w = w' ++ ['\n']) ∧ (∀ c ∈ w', isWordChar c = true) ∧
        5 ≤ w'.length ∧ w'.length ≤ 32 := by
  constructor
  · intro h
    simp only [matchUsername, Bool.and_eq_true, decide_eq_true_eq] at h
    obtain ⟨⟨⟨-, h5⟩, h32⟩, hend⟩ := h
    refine ⟨w.takeWhile isWordChar, ?_, fun c hc => List.mem_takeWhile_imp hc, h5, h32⟩
    rcases (dollarEnd_iff _).mp hend with hd | hd
    · left
      conv_lhs => rw [← List.takeWhile_append_dropWhile isWordChar w]
      rw [hd, List.append_nil]
    · right
      conv_lhs => rw [← List.takeWhile_append_dropWhile isWordChar w]
      rw [hd]
  · rintro ⟨w', hw, hall, h5, h32⟩
    have key : ∀ t : List Char, dollarEnd t = true →
        (∀ c, t.head? = some c → isWordChar c = false) →
        matchUsername ('@' :: (w' ++ t)) = true := by
      intro t hdt hth
      have h1 := takeWhile_dropWhile_append isWordChar w' t hall hth
      show (decide ('@' = '@') && decide (5 ≤ ((w' ++ t).takeWhile isWordChar).length)
          && decide (((w' ++ t).takeWhile isWordChar).length ≤ 32)
          && dollarEnd ((w' ++ t).dropWhile isWordChar)) = true
      rw [h1.1, h1.2, hdt]
      simp [h5, h32]
    rcases hw with h | h
    · rw [h, ← List.append_nil w']
      exact key [] (by decide) (fun c hc => by simp at hc)
    · rw [h]
      exact key ['\n'] (by decide)
        (fun c hc => by
          simp only [List.head?_cons, Option.some_inj] at hc
          subst hc; decide)

/-- Every string the third (private-invite) pattern accepts, the second accepts. -/
theorem invite_imp_tme (l : List Char) (h : matchInvite l = true) : matchTme l = true := by
  unfold matchInvite at h
  cases hA : afterScheme l with
  | none => rw [hA] at h; exact absurd h (by simp)
  | some rest =>
      rw [hA] at h
      rcases rest with _ | ⟨c, rest2⟩
      · exact absurd h (by simp)
      · simp only [Bool.and_eq_true, decide_eq_true_eq] at h
        obtain ⟨⟨hc, h1⟩, hend⟩ := h
        subst hc
        have hw : ∀ c ∈ rest2.takeWhile isWordChar, wordOrPlus c = true := by
          intro c hc
          have hcw : isWordChar c = true := List.mem_takeWhile_imp hc
          simp [wordOrPlus, hcw]
        have ht : ∀ c, (rest2.dropWhile isWordChar).head? = some c → wordOrPlus c = false := by
          intro c hc
          rcases (dollarEnd_iff _).mp hend with hd | hd <;> rw [hd] at hc
          · simp at hc
          · simp only [List.head?_cons, Option.some_inj] at hc
            subst hc; decide
        have hsp := takeWhile_dropWhile_append wordOrPlus
          (rest2.takeWhile isWordChar) (rest2.dropWhile isWordChar) hw ht
        rw [List.takeWhile_append_dropWhile isWordChar rest2] at hsp
        unfold matchTme
        rw [hA]
        show (decide (1 ≤ (('+' :: rest2).takeWhile wordOrPlus).length) &&
              afterClass (('+' :: rest2).dropWhile wordOrPlus)) = true
        rw [List.takeWhile_cons, List.dropWhile_cons]
        have hplus : wordOrPlus '+' = true := by decide
        rw [hplus]
        simp only [if_true, hsp.1, hsp.2]
        have hlen : decide (1 ≤ ('+' :: rest2.takeWhile isWordChar).length) = true := by
          simp
        rw [hlen, Bool.true_and]
        rcases (dollarEnd_iff _).mp hend with hd | hd <;> rw [hd] <;> decide

/-! ## Claims about the validator -/

/-- Claim C3 (amended).  The accepted `@`-strings are exactly `@` followed by
5 to 32 word characters and then an optional single trailing newline, which the
Python `$` anchor tolerates.  In particular every `@` + 5-32-word-character
string is accepted, every other `@`-string (too short, too long, or containing
a character outside the word class anywhere but as a lone trailing newline) is
rejected, and the empty string is rejected. -/
theorem c3_username_pattern :
    (∀ w : List Char,
        validate_target ⟨'@' :: w⟩ = true ↔
          ∃ w', (w = w' ∨ w = w' ++ ['\n']) ∧ (∀ c ∈ w', isWordChar c = true) ∧
            5 ≤ w'.length ∧ w'.length ≤ 32) ∧
    validate_target "" = false := by
  constructor
  · intro w
    have hA : afterScheme ('@' :: w) = none := rfl
    have hT : matchTme ('@' :: w) = false := by unfold matchTme; rw [hA]
    have hI : matchInvite ('@' :: w) = false := by unfold matchInvite; rw [hA]
    show (matchUsername ('@' :: w) || matchTme ('@' :: w) || matchInvite ('@' :: w)) = true ↔ _
    rw [hT, hI, Bool.or_false, Bool.or_false]
    exact matchUsername_iff w
  · decide

/-- Witness for C3: `@abcde` is accepted. -/
theorem c3_username_pattern_w : validate_target ⟨'@' :: "abcde".data⟩ = true :=
  (c3_username_pattern.1 "abcde".data).mpr
    ⟨"abcde".data, Or.inl rfl, by decide, by decide, by decide⟩

/-- Counterexample to C3 as stated: `"@abcde\n"` has a character outside the
word class after the `@`, yet `validate_target` accepts it (Python's `$`
matches just before a trailing newline). -/
theorem c3_counterexample :
    validate_target "@abcde\n" = true ∧
    ("@abcde\n".data.drop 1).all isWordChar = false := by decide

/-- Claim C4: `http(s)://t.me/` followed by one or more word-or-plus characters
and an optional trailing slash is accepted; `ftp://t.me/name` and
`https://telegram.me/name` are rejected; and any accepted string either starts
with `@` or starts with `http://t.me/` or `https://t.me/` (so every other
scheme or host is rejected). -/
theorem c4_link_patterns :
    (∀ (w : List Char) (useS useSlash : Bool), w ≠ [] → (∀ c ∈ w, wordOrPlus c = true) →
        validate_target
          ⟨(if useS then "https://t.me/" else "http://t.me/").data ++ w
            ++ (if useSlash then ['/'] else [])⟩ = true) ∧
    validate_target "ftp://t.me/name" = false ∧
    validate_target "https://telegram.me/name" = false ∧
    (∀ s : String, validate_target s = true →
        s.data.head? = some '@' ∨
        ∃ rest, s.data = "http://t.me/".data ++ rest ∨
                s.data = "https://t.me/".data ++ rest) := by
  refine ⟨?_, by decide, by decide, ?_⟩
  · intro w useS useSlash hne hall
    have hslash : ∀ c, (if useSlash then ['/'] else []).head? = some c → wordOrPlus c = false := by
      intro c hc
      cases useSlash with
      | false => simp at hc
      | true =>
          simp only [if_true, List.head?_cons, Option.some_inj] at hc
          subst hc; decide
    have hsp := takeWhile_dropWhile_append wordOrPlus w (if useSlash then ['/'] else []) hall hslash
    have hlen : 1 ≤ w.length := List.length_pos.mpr hne
    have hTme : matchTme
        ((if useS then "https://t.me/" else "http://t.me/").data ++ w
          ++ (if useSlash then ['/'] else [])) = true := by
      cases useS with
      | true =>
          rw [if_pos rfl]
          unfold matchTme
          rw [List.append_assoc]
          rw [show afterScheme ("https://t.me/".data ++ (w ++ (if useSlash then ['/'] else [])))
                = some (w ++ (if useSlash then ['/'] else [])) from rfl]
          show (decide (1 ≤ ((w ++ (if useSlash then ['/'] else [])).takeWhile wordOrPlus).length)
              && afterClass ((w ++ (if useSlash then ['/'] else [])).dropWhile wordOrPlus)) = true
          rw [hsp.1, hsp.2]
          simp only [Bool.and_eq_true, decide_eq_true_eq]
          refine ⟨hlen, ?_⟩
          cases useSlash <;> decide
      | false =>
          rw [if_neg (by decide)]
          unfold matchTme
          rw [List.append_assoc]
          rw [show afterScheme ("http://t.me/".data ++ (w ++ (if useSlash then ['/'] else [])))
                = some (w ++ (if useSlash then ['/'] else [])) from rfl]
          show (decide (1 ≤ ((w ++ (if useSlash then ['/'] else [])).takeWhile wordOrPlus).length)
              && afterClass ((w ++ (if useSlash then ['/'] else [])).dropWhile wordOrPlus)) = true
          rw [hsp.1, hsp.2]
          simp only [Bool.and_eq_true, decide_eq_true_eq]
          refine ⟨hlen, ?_⟩
          cases useSlash <;> decide
    show (matchUsername _ || matchTme _ || matchInvite _) = true
    rw [hTme]
    simp
  · intro s h
    simp only [validate_target, Bool.or_eq_true] at h
    rcases h with (h | h) | h
    · left
      cases hs : s.data with
      | nil => rw [hs] at h; exact absurd h (by simp [matchUsername])
      | cons c l =>
          rw [hs] at h
          simp only [matchUsername, Bool.and_eq_true, decide_eq_true_eq] at h
          rw [h.1.1.1]
          rfl
    · right
      unfold matchTme at h
      cases hA : afterScheme s.data with
      | none => rw [hA] at h; exact absurd h (by simp)
      | some rest => exact ⟨rest, afterScheme_some_src _ _ hA⟩
    · right
      unfold matchInvite at h
      cases hA : afterScheme s.data with
      | none => rw [hA] at h; exact absurd h (by simp)
      | some rest => exact ⟨rest, afterScheme_some_src _ _ hA⟩

/-- Witness for C4: `https://t.me/examplegroup` is accepted. -/
theorem c4_link_patterns_w : validate_target "https://t.me/examplegroup" = true :=
  c4_link_patterns.1 "examplegroup".data true false (by decide) (by decide)

/-- Claim C10: the private-invite pattern is subsumed by the general link
pattern, so removing it does not change the validator. -/
theorem c10_invite_subsumed : ∀ s : String, validate_target s = validate_target_noInvite s := by
  intro s
  unfold validate_target validate_target_noInvite
  cases hI : matchInvite s.data with
  | false => simp [hI]
  | true => simp [hI, invite_imp_tme s.data hI]

/-- Witness for C10 at the private-invite example. -/
theorem c10_invite_subsumed_w :
    validate_target "https://t.me/+abc123" = validate_target_noInvite "https://t.me/+abc123" :=
  c10_invite_subsumed "https://t.me/+abc123"

/-! ## Claims about the state machine -/

theorem dispatchCount_save (cfg : Cfg) (fl : Recipient → Bool) :
    dispatchCount (ReportBot.save_report_outs cfg fl) = 0 := by
  unfold dispatchCount ReportBot.save_report_outs
  rw [List.countP_append]
  have h1 : List.countP Out.isDispatchCall
      (if truthyOpt cfg.channelId then [Out.deliver .channel (!fl .channel)] else []) = 0 := by
    split <;> simp [List.countP_cons, Out.isDispatchCall]
  have h2 : ∀ l : List Int, List.countP Out.isDispatchCall
      (l.map fun a => Out.deliver (.admin a) (!fl (.admin a))) = 0 := by
    intro l
    induction l with
    | nil => rfl
    | cons a l ih => simp [List.countP_cons, Out.isDispatchCall, ih]
  rw [h1, h2]

/-- Claim C1 (amended).  Every cancel input — the cancel button in
AWAITING_TYPE, AWAITING_REASON or AWAITING_CONFIRMATION, or the `/cancel`
fallback in any of the five states — ends the conversation (the framework's
conversation state is dropped, so only a fresh `/report` can continue) and
never invokes the Dispatcher; but the stored draft fields are left in
`user_data` untouched (`user_data.clear()` runs only on confirm), so the
session's draft data is not cleared. -/
theorem c1_cancel_terminal (cfg : Cfg) (fl : Recipient → Bool) (dr : Draft) (cd : Option Nat) :
    (∀ s : ConvState,
        step cfg fl .cancelCmd ⟨some s, dr, cd⟩ = (⟨none, dr, cd⟩, [.reply cancelledCmdText]) ∧
        dispatchCount (step cfg fl .cancelCmd ⟨some s, dr, cd⟩).2 = 0) ∧
    step cfg fl (.typeCb .cancelBtn) ⟨some .reportType, dr, cd⟩
      = (⟨none, dr, cd⟩, [.edit cancelledEditText]) ∧
    step cfg fl (.reasonCb .cancelBtn) ⟨some .reportReason, dr, cd⟩
      = (⟨none, dr, cd⟩, [.edit cancelledEditText]) ∧
    (∀ now : Nat,
        step cfg fl (.confirmCb .cancelBtn now) ⟨some .confirmation, dr, cd⟩
          = (⟨none, dr, cd⟩, [.edit cancelledEditText]) ∧
        dispatchCount (step cfg fl (.confirmCb .cancelBtn now) ⟨some .confirmation, dr, cd⟩).2 = 0) :=
  ⟨fun s => by cases s <;> exact ⟨rfl, rfl⟩, rfl, rfl, fun _ => ⟨rfl, rfl⟩⟩

/-- Witness for C1: `/cancel` during AWAITING_DETAILS ends the conversation
with the cancel reply. -/
theorem c1_cancel_terminal_w :
    step cfgD flOk .cancelCmd ⟨some .reportDetails, Draft.empty, none⟩
      = (⟨none, Draft.empty, none⟩, [.reply cancelledCmdText]) :=
  ((c1_cancel_terminal cfgD flOk Draft.empty none).1 .reportDetails).1

/-- Counterexample to C1 as stated: cancelling at confirmation reaches the
terminal (no conversation state remains) without clearing the user's stored
draft data. -/
theorem c1_counterexample :
    ((step cfgD flOk (.confirmCb .cancelBtn 0)
        ⟨some .confirmation,
         ⟨some .group, some "https://t.me/examplegroup", some .spam, some "test"⟩,
         none⟩).1.conv = none) ∧
    ((step cfgD flOk (.confirmCb .cancelBtn 0)
        ⟨some .confirmation,
         ⟨some .group, some "https://t.me/examplegroup", some .spam, some "test"⟩,
         none⟩).1.draft ≠ Draft.empty) := by decide

/-- Claim C5: with no cooldown record or an expired one, `/report` enters
AWAITING_TYPE and renders the type options; with `eligible_at` strictly in the
future it replies with the remaining seconds (`timedelta.seconds`, i.e. the
difference — modulo 86400 in general, which is the difference itself for any
remaining time under a day, and every cooldown this bot sets is 60 seconds)
and ends without creating any conversation state. -/
theorem c5_report_entry (cfg : Cfg) (fl : Recipient → Bool) (dr : Draft) :
    (∀ tEnd now : Nat, now < tEnd → tEnd - now < 86400 →
        step cfg fl (.reportCmd now) ⟨none, dr, some tEnd⟩
          = (⟨none, dr, some tEnd⟩, [.reply (cooldownText (tEnd - now))])) ∧
    (∀ tEnd now : Nat, now < tEnd →
        step cfg fl (.reportCmd now) ⟨none, dr, some tEnd⟩
          = (⟨none, dr, some tEnd⟩, [.reply (cooldownText ((tEnd - now) % 86400))])) ∧
    (∀ now : Nat,
        step cfg fl (.reportCmd now) ⟨none, dr, none⟩
          = (⟨some .reportType, dr, none⟩, [.reply typePromptText])) ∧
    (∀ tEnd now : Nat, tEnd ≤ now →
        step cfg fl (.reportCmd now) ⟨none, dr, some tEnd⟩
          = (⟨some .reportType, dr, some tEnd⟩, [.reply typePromptText])) := by
  have hred : ∀ tEnd now : Nat,
      step cfg fl (.reportCmd now) ⟨none, dr, some tEnd⟩
        = (if now < tEnd
            then ((⟨none, dr, some tEnd⟩ : UState),
                  [Out.reply (cooldownText ((tEnd - now) % 86400))])
            else (⟨some .reportType, dr, some tEnd⟩, [Out.reply typePromptText])) :=
    fun _ _ => rfl
  refine ⟨?_, ?_, fun now => rfl, ?_⟩
  · intro tEnd now h1 h2
    rw [hred, if_pos h1, Nat.mod_eq_of_lt h2]
  · intro tEnd now h1
    rw [hred, if_pos h1]
  · intro tEnd now h1
    rw [hred, if_neg (Nat.not_lt.mpr h1)]

/-- Witness for C5, blocked case: 60 seconds remaining. -/
theorem c5_report_entry_w :
    step cfgD flOk (.reportCmd 40) ⟨none, Draft.empty, some 100⟩
      = (⟨none, Draft.empty, some 100⟩, [.reply (cooldownText 60)]) :=
  (c5_report_entry cfgD flOk Draft.empty).1 100 40 (by decide) (by decide)

/-- Claim C6: confirm in AWAITING_CONFIRMATION invokes the Dispatcher exactly
once, sets the cooldown to exactly `cooldown_duration` seconds after the
confirmation time (the configured constant defaults to 60), clears the session
draft and ends the conversation, then shows the success message. -/
theorem c6_confirm_submits (cfg : Cfg) (fl : Recipient → Bool) (t : TypeChoice)
    (tgt : String) (r : ReasonChoice) (d : String) (cd : Option Nat) (now : Nat) :
    step cfg fl (.confirmCb .confirmBtn now)
        ⟨some .confirmation, ⟨some t, some tgt, some r, some d⟩, cd⟩
      = (⟨none, Draft.empty, some (now + cfg.cooldownDur)⟩,
         .dispatchCall :: (ReportBot.save_report_outs cfg fl ++ [.edit successText])) ∧
    dispatchCount (step cfg fl (.confirmCb .confirmBtn now)
        ⟨some .confirmation, ⟨some t, some tgt, some r, some d⟩, cd⟩).2 = 1 ∧
    REPORT_COOLDOWN = 60 := by
  refine ⟨rfl, ?_, rfl⟩
  show dispatchCount
      (.dispatchCall :: (ReportBot.save_report_outs cfg fl ++ [.edit successText])) = 1
  have h := dispatchCount_save cfg fl
  unfold dispatchCount at h ⊢
  rw [List.countP_cons, List.countP_append, h]
  rfl

/-- Witness for C6: confirming a complete draft invokes the Dispatcher exactly
once. -/
theorem c6_confirm_submits_w :
    dispatchCount (step cfgD flOk (.confirmCb .confirmBtn 10)
        ⟨some .confirmation,
         ⟨some .group, some "https://t.me/examplegroup", some .spam, some "test"⟩,
         none⟩).2 = 1 :=
  (c6_confirm_submits cfgD flOk .group "https://t.me/examplegroup" .spam "test" none 10).2.1

/-- Claim C7 (amended).  In AWAITING_DETAILS the length bound is applied to the
whitespace-stripped text: if the stripped text is longer than the configured
maximum the message is rejected with the too-long reply and the state and draft
are unchanged; if the stripped length is at most the maximum (in particular
exactly the maximum) the stripped text is stored as the details and the state
moves to AWAITING_CONFIRMATION. -/
theorem c7_details_length (cfg : Cfg) (fl : Recipient → Bool) (t : TypeChoice) (tgt : String)
    (r : ReasonChoice) (d0 : Option String) (cd : Option Nat) (text : String) :
    ((pyStrip text).length > cfg.maxLen →
        step cfg fl (.textMsg text) ⟨some .reportDetails, ⟨some t, some tgt, some r, d0⟩, cd⟩
          = (⟨some .reportDetails, ⟨some t, some tgt, some r, d0⟩, cd⟩,
             [.reply (tooLongText cfg.maxLen)])) ∧
    ((pyStrip text).length ≤ cfg.maxLen →
        step cfg fl (.textMsg text) ⟨some .reportDetails, ⟨some t, some tgt, some r, d0⟩, cd⟩
          = (⟨some .confirmation, ⟨some t, some tgt, some r, some (pyStrip text)⟩, cd⟩,
             [.reply (summaryText t tgt r (pyStrip text))])) := by
  have hred : step cfg fl (.textMsg text)
      ⟨some .reportDetails, ⟨some t, some tgt, some r, d0⟩, cd⟩
        = (if (pyStrip text).length > cfg.maxLen
            then ((⟨some .reportDetails, ⟨some t, some tgt, some r, d0⟩, cd⟩ : UState),
                  [Out.reply (tooLongText cfg.maxLen)])
            else (⟨some .confirmation, ⟨some t, some tgt, some r, some (pyStrip text)⟩, cd⟩,
                  [Out.reply (summaryText t tgt r (pyStrip text))])) := rfl
  exact ⟨fun h => by rw [hred, if_pos h],
         fun h => by rw [hred, if_neg (Nat.not_lt.mpr h)]⟩

/-- Witness for C7: a short message is stored stripped and moves to
confirmation. -/
theorem c7_details_length_w :
    step cfgD flOk (.textMsg "ok")
        ⟨some .reportDetails,
         ⟨some .group, some "https://t.me/examplegroup", some .spam, none⟩, none⟩
      = (⟨some .confirmation,
          ⟨some .group, some "https://t.me/examplegroup", some .spam, some (pyStrip "ok")⟩,
          none⟩,
         [.reply (summaryText .group "https://t.me/examplegroup" .spam (pyStrip "ok"))]) :=
  (c7_details_length cfgD flOk .group "https://t.me/examplegroup" .spam none none "ok").2
    (by decide)

set_option maxRecDepth 100000 in
/-- Counterexample to C7 as stated: a raw message of length `max+1` (1000 `a`s
and a trailing space) is accepted — its stripped length is 1000 — and the state
moves to AWAITING_CONFIRMATION instead of being rejected. -/
theorem c7_counterexample :
    msg1001.length = MAX_REPORT_LENGTH + 1 ∧
    (step cfgD flOk (.textMsg msg1001)
        ⟨some .reportDetails,
         ⟨some .group, some "https://t.me/examplegroup", some .spam, none⟩, none⟩).1.conv
      = some .confirmation := by decide

theorem hasSub_self (pat : List Char) : hasSub pat pat = true :=
  hasSub_here _ _ (by rw [(stripPrefixCh_eq_some pat pat []).mpr (List.append_nil pat).symm]; rfl)

/-- Claim C2 (amended).  Accepting a details message renders exactly one reply,
the summary of the stored draft, and moves to AWAITING_CONFIRMATION (likewise
for `/skip` with the sentinel details).  The summary contains the type's
display label, the target verbatim, the capitalized reason, and the first 200
characters of the details (so the details appear verbatim only when they are at
most 200 characters long).  On the happy path — type `group`, target
`https://t.me/examplegroup`, reason `spam`, details `test` — all four stored
values do appear verbatim, the reason capitalized. -/
theorem c2_summary_render (cfg : Cfg) (fl : Recipient → Bool) (t : TypeChoice) (tgt : String)
    (r : ReasonChoice) (d0 : Option String) (cd : Option Nat) (text : String)
    (hlen : (pyStrip text).length ≤ cfg.maxLen) :
    (step cfg fl (.textMsg text) ⟨some .reportDetails, ⟨some t, some tgt, some r, d0⟩, cd⟩).2
      = [.reply (summaryText t tgt r (pyStrip text))] ∧
    (step cfg fl (.textMsg text) ⟨some .reportDetails, ⟨some t, some tgt, some r, d0⟩, cd⟩).1.conv
      = some .confirmation ∧
    (step cfg fl .skipCmd ⟨some .reportDetails, ⟨some t, some tgt, some r, d0⟩, cd⟩).2
      = [.reply (summaryText t tgt r skipSentinel)] ∧
    strContains (REPORT_TYPES t) (summaryText t tgt r (pyStrip text)) = true ∧
    strContains tgt (summaryText t tgt r (pyStrip text)) = true ∧
    strContains (pyCapitalize (reasonKey r)) (summaryText t tgt r (pyStrip text)) = true ∧
    strContains (pyTake 200 (pyStrip text)) (summaryText t tgt r (pyStrip text)) = true ∧
    (strContains "group" (summaryText .group "https://t.me/examplegroup" .spam "test") = true ∧
     strContains "https://t.me/examplegroup"
        (summaryText .group "https://t.me/examplegroup" .spam "test") = true ∧
     strContains "Spam" (summaryText .group "https://t.me/examplegroup" .spam "test") = true ∧
     strContains "test" (summaryText .group "https://t.me/examplegroup" .spam "test") = true) := by
  have hred : step cfg fl (.textMsg text)
      ⟨some .reportDetails, ⟨some t, some tgt, some r, d0⟩, cd⟩
        = (if (pyStrip text).length > cfg.maxLen
            then ((⟨some .reportDetails, ⟨some t, some tgt, some r, d0⟩, cd⟩ : UState),
                  [Out.reply (tooLongText cfg.maxLen)])
            else (⟨some .confirmation, ⟨some t, some tgt, some r, some (pyStrip text)⟩, cd⟩,
                  [Out.reply (summaryText t tgt r (pyStrip text))])) := rfl
  refine ⟨?_, ?_, rfl, ?_, ?_, ?_, ?_, by decide⟩
  · rw [hred, if_neg (Nat.not_lt.mpr hlen)]
  · rw [hred, if_neg (Nat.not_lt.mpr hlen)]
  · simp only [strContains, summaryText, data_mk, List.append_assoc]
    exact hasSub_append_left _ _ _ (hasSub_self_append _ _)
  · simp only [strContains, summaryText, data_mk, List.append_assoc]
    exact hasSub_append_left _ _ _ (hasSub_append_left _ _ _
      (hasSub_append_left _ _ _ (hasSub_self_append _ _)))
  · simp only [strContains, summaryText, data_mk, List.append_assoc]
    exact hasSub_append_left _ _ _ (hasSub_append_left _ _ _ (hasSub_append_left _ _ _
      (hasSub_append_left _ _ _ (hasSub_append_left _ _ _ (hasSub_self_append _ _)))))
  · simp only [strContains, summaryText, data_mk, List.append_assoc]
    exact hasSub_append_left _ _ _ (hasSub_append_left _ _ _ (hasSub_append_left _ _ _
      (hasSub_append_left _ _ _ (hasSub_append_left _ _ _ (hasSub_append_left _ _ _
        (hasSub_append_left _ _ _ (hasSub_self _)))))))

/-- Witness for C2 on the happy-path details message. -/
theorem c2_summary_render_w :
    (step cfgD flOk (.textMsg "test")
        ⟨some .reportDetails,
         ⟨some .group, some "https://t.me/examplegroup", some .spam, none⟩, none⟩).2
      = [.reply (summaryText .group "https://t.me/examplegroup" .spam (pyStrip "test"))] :=
  (c2_summary_render cfgD flOk .group "https://t.me/examplegroup" .spam none none "test"
    (by decide)).1

set_option maxRecDepth 100000 in
/-- Counterexample to C2 as stated: a draft with type `user` and 201-character
details reaches AWAITING_CONFIRMATION, but its summary contains neither the
stored type value `user` (only the label `👤 User`) nor the stored details
(truncated to 200 characters). -/
theorem c2_counterexample :
    ((step cfgD flOk (.textMsg aStr)
        ⟨some .reportDetails,
         ⟨some .user, some "https://t.me/abcdef", some .spam, none⟩, none⟩).1.conv
      = some .confirmation) ∧
    ((step cfgD flOk (.textMsg aStr)
        ⟨some .reportDetails,
         ⟨some .user, some "https://t.me/abcdef", some .spam, none⟩, none⟩).2
      = [.reply (summaryText .user "https://t.me/abcdef" .spam aStr)]) ∧
    strContains "user" (summaryText .user "https://t.me/abcdef" .spam aStr) = false ∧
    strContains aStr (summaryText .user "https://t.me/abcdef" .spam aStr) = false := by decide

/-- Claim C8: during the fan-out of a confirmed report, every configured admin
gets a delivery attempt (succeeding unless that admin's own send fails) no
matter which other deliveries fail, the channel delivery is attempted whenever
a channel is configured, and regardless of the failure oracle the submitter
sees the success message and the cooldown is applied. -/
theorem c8_fanout_isolation (cfg : Cfg) (fl : Recipient → Bool) (t : TypeChoice) (tgt : String)
    (r : ReasonChoice) (d : String) (cd : Option Nat) (now : Nat) :
    (∀ a ∈ cfg.adminIds,
        Out.deliver (.admin a) (!fl (.admin a))
          ∈ (step cfg fl (.confirmCb .confirmBtn now)
              ⟨some .confirmation, ⟨some t, some tgt, some r, some d⟩, cd⟩).2) ∧
    (truthyOpt cfg.channelId = true →
        Out.deliver .channel (!fl .channel)
          ∈ (step cfg fl (.confirmCb .confirmBtn now)
              ⟨some .confirmation, ⟨some t, some tgt, some r, some d⟩, cd⟩).2) ∧
    Out.edit successText
      ∈ (step cfg fl (.confirmCb .confirmBtn now)
          ⟨some .confirmation, ⟨some t, some tgt, some r, some d⟩, cd⟩).2 ∧
    (step cfg fl (.confirmCb .confirmBtn now)
        ⟨some .confirmation, ⟨some t, some tgt, some r, some d⟩, cd⟩).1.cooldown
      = some (now + cfg.cooldownDur) := by
  have hred : (step cfg fl (.confirmCb .confirmBtn now)
      ⟨some .confirmation, ⟨some t, some tgt, some r, some d⟩, cd⟩).2
        = .dispatchCall ::
          (((if truthyOpt cfg.channelId then [Out.deliver .channel (!fl .channel)] else [])
              ++ cfg.adminIds.map fun a => Out.deliver (.admin a) (!fl (.admin a)))
            ++ [Out.edit successText]) := rfl
  refine ⟨?_, ?_, ?_, rfl⟩
  · intro a ha
    rw [hred]
    exact List.mem_cons_of_mem _ (List.mem_append_left _
      (List.mem_append_right _ (List.mem_map_of_mem _ ha)))
  · intro hc
    rw [hred, if_pos hc]
    exact List.mem_cons_of_mem _ (List.mem_append_left _
      (List.mem_append_left _ (List.mem_singleton_self _)))
  · rw [hred]
    exact List.mem_cons_of_mem _ (List.mem_append_right _ (List.mem_singleton_self _))

/-- Witness for C8: with the channel and admin 1 failing, admin 2 still gets a
successful delivery. -/
theorem c8_fanout_isolation_w :
    Out.deliver (.admin 2) true
      ∈ (step cfg8 fl8 (.confirmCb .confirmBtn 7)
          ⟨some .confirmation,
           ⟨some .group, some "https://t.me/examplegroup", some .spam, some "test"⟩,
           none⟩).2 :=
  (c8_fanout_isolation cfg8 fl8 .group "https://t.me/examplegroup" .spam "test" none 7).1
    2 (by decide)

/-- Claim C9: free text at AWAITING_TARGET and AWAITING_DETAILS is stripped
before any use — two messages with the same stripped form behave identically in
every state; the stripped target is what validation sees and what is stored;
and the details length bound applies to (and the store keeps) the stripped
text. -/
theorem c9_strip_before_use (cfg : Cfg) (fl : Recipient → Bool) :
    (∀ (st : UState) (t1 t2 : String), pyStrip t1 = pyStrip t2 →
        step cfg fl (.textMsg t1) st = step cfg fl (.textMsg t2) st) ∧
    (∀ (dr : Draft) (cd : Option Nat) (text : String),
        validate_target (pyStrip text) = true →
        step cfg fl (.textMsg text) ⟨some .reportTarget, dr, cd⟩
          = (⟨some .reportReason, {dr with report_target := some (pyStrip text)}, cd⟩,
             [.reply reasonPromptText])) ∧
    (∀ (dr : Draft) (cd : Option Nat) (text : String),
        validate_target (pyStrip text) = false →
        step cfg fl (.textMsg text) ⟨some .reportTarget, dr, cd⟩
          = (⟨some .reportTarget, dr, cd⟩, [.reply invalidTargetText])) ∧
    (∀ (t : TypeChoice) (tgt : String) (r : ReasonChoice) (d0 : Option String)
        (cd : Option Nat) (text : String),
        (pyStrip text).length ≤ cfg.maxLen →
        (step cfg fl (.textMsg text)
            ⟨some .reportDetails, ⟨some t, some tgt, some r, d0⟩, cd⟩).1.draft.report_details
          = some (pyStrip text)) := by
  refine ⟨?_, ?_, ?_, ?_⟩
  · intro st t1 t2 h
    obtain ⟨cv, dr, cd⟩ := st
    cases cv with
    | none => rfl
    | some s =>
        cases s with
        | reportTarget =>
            show ReportBot.report_target ⟨some .reportTarget, dr, cd⟩ t1
              = ReportBot.report_target ⟨some .reportTarget, dr, cd⟩ t2
            unfold ReportBot.report_target
            rw [h]
        | reportDetails =>
            show ReportBot.report_details cfg ⟨some .reportDetails, dr, cd⟩ t1
              = ReportBot.report_details cfg ⟨some .reportDetails, dr, cd⟩ t2
            unfold ReportBot.report_details
            rw [h]
        | reportType => rfl
        | reportReason => rfl
        | confirmation => rfl
  · intro dr cd text hv
    have hred : step cfg fl (.textMsg text) ⟨some .reportTarget, dr, cd⟩
        = (if validate_target (pyStrip text) = true
            then ((⟨some .reportReason, {dr with report_target := some (pyStrip text)}, cd⟩ :
                    UState),
                  [Out.reply reasonPromptText])
            else (⟨some .reportTarget, dr, cd⟩, [Out.reply invalidTargetText])) := rfl
    rw [hred, if_pos hv]
  · intro dr cd text hv
    have hred : step cfg fl (.textMsg text) ⟨some .reportTarget, dr, cd⟩
        = (if validate_target (pyStrip text) = true
            then ((⟨some .reportReason, {dr with report_target := some (pyStrip text)}, cd⟩ :
                    UState),
                  [Out.reply reasonPromptText])
            else (⟨some .reportTarget, dr, cd⟩, [Out.reply invalidTargetText])) := rfl
    rw [hred, if_neg (by simp [hv])]
  · intro t tgt r d0 cd text h
    have hred : step cfg fl (.textMsg text)
        ⟨some .reportDetails, ⟨some t, some tgt, some r, d0⟩, cd⟩
          = (if (pyStrip text).length > cfg.maxLen
              then ((⟨some .reportDetails, ⟨some t, some tgt, some r, d0⟩, cd⟩ : UState),
                    [Out.reply (tooLongText cfg.maxLen)])
              else (⟨some .confirmation, ⟨some t, some tgt, some r, some (pyStrip text)⟩, cd⟩,
                    [Out.reply (summaryText t tgt r (pyStrip text))])) := rfl
    rw [hred, if_neg (Nat.not_lt.mpr h)]

/-- Witness for C9: a target padded with spaces behaves like the unpadded one. -/
theorem c9_strip_before_use_w :
    step cfgD flOk (.textMsg "  @abcde  ") ⟨some .reportTarget, Draft.empty, none⟩
      = step cfgD flOk (.textMsg "@abcde") ⟨some .reportTarget, Draft.empty, none⟩ :=
  (c9_strip_before_use cfgD flOk).1 ⟨some .reportTarget, Draft.empty, none⟩
    "  @abcde  " "@abcde" (by decide)

end Banner
